import Mathlib

/-!
Verification of the authorization engine of `fastapi-starter`
(RBAC / ABAC / ReBAC evaluators and their aggregator).

The definitions below are a shallow embedding of
`app/services/abac_service.py`, `app/services/rebac_service.py`,
`app/services/authorization_service.py` and `app/core/casbin_enforcer.py`.
Python dictionaries of attributes are modelled as association lists with
first-match lookup, Python runtime values as the inductive `PyVal`, and
`float()` parsing as a rational-number parser.
-/

namespace FastapiStarter

/-- Python runtime values that can appear as attribute or condition values:
`None`, strings, integers and booleans. -/
inductive PyVal where
  | none : PyVal
  | str : String → PyVal
  | int : Int → PyVal
  | bool : Bool → PyVal
deriving DecidableEq

/-- Python `str(v)`. In particular `str(None) = "None"`,
`str(True) = "True"`, `str(False) = "False"`. -/
def pyStr : PyVal → String
  | .none => "None"
  | .str s => s
  | .int n => toString n
  | .bool b => if b then "True" else "False"

/-- Python truthiness: `None`, `""`, `0` and `False` are falsy. -/
def pyTruthy : PyVal → Bool
  | .none => false
  | .str s => !s.isEmpty
  | .int n => n != 0
  | .bool b => b

/-- Digits to a natural number, most significant first. -/
def digitsToNat (l : List Char) : Nat :=
  l.foldl (fun a c => 10 * a + (c.toNat - 48)) 0

/-- An unreduced fraction with positive denominator, standing for the real
number a Python `float()` conversion produces.  Comparisons cross-multiply,
so no normalisation is needed. -/
structure Frac where
  num : Int
  den : Nat
deriving DecidableEq

/-- Strict order `a < b` on fractions with positive denominators. -/
def fracLt (a b : Frac) : Bool := a.num * (b.den : Int) < b.num * (a.den : Int)

/-- Order `a ≤ b` on fractions with positive denominators. -/
def fracLe (a b : Frac) : Bool := a.num * (b.den : Int) ≤ b.num * (a.den : Int)

/-- Model of Python `float(string)` restricted to plain decimal literals:
optional surrounding whitespace, an optional sign, an integer part and an
optional fractional part.  Returns `Option.none` exactly when Python's
`float()` would raise `ValueError` on such inputs (e.g. on `"abc"`). -/
def parseFloatChars (cs0 : List Char) : Option Frac :=
  let cs1 := (((cs0.dropWhile Char.isWhitespace).reverse).dropWhile Char.isWhitespace).reverse
  let signAndDigits : Int × List Char :=
    match cs1 with
    | '-' :: rest => (-1, rest)
    | '+' :: rest => (1, rest)
    | _ => (1, cs1)
  let sign := signAndDigits.1
  let cs := signAndDigits.2
  let intPart := cs.takeWhile Char.isDigit
  match cs.dropWhile Char.isDigit with
  | [] =>
    if intPart.isEmpty then Option.none
    else some { num := sign * (digitsToNat intPart : Int), den := 1 }
  | '.' :: frac =>
    if frac.all Char.isDigit && !(intPart.isEmpty && frac.isEmpty) then
      some { num := sign * ((digitsToNat intPart : Int) * (10 ^ frac.length : Nat) +
                            (digitsToNat frac : Int)),
             den := 10 ^ frac.length }
    else Option.none
  | _ => Option.none

/-- Python `float(v)` on a `PyVal`: `float(None)` raises (`Option.none`),
booleans convert to 1 or 0, strings are parsed. -/
def pyFloat : PyVal → Option Frac
  | .none => Option.none
  | .str s => parseFloatChars s.toList
  | .int n => some { num := n, den := 1 }
  | .bool b => some { num := if b then 1 else 0, den := 1 }

/-- Whether `needle` starts `hay` (character lists). -/
def charsStartWith : List Char → List Char → Bool
  | [], _ => true
  | _ :: _, [] => false
  | a :: as, b :: bs => a == b && charsStartWith as bs

/-- Python substring test `needle in hay` on strings. -/
def charsContain (needle : List Char) : List Char → Bool
  | [] => charsStartWith needle []
  | c :: rest => charsStartWith needle (c :: rest) || charsContain needle rest

/-- Embedding of `ABACService._compare_values` (`app/services/abac_service.py`).
Every comparison runs inside `try/except (ValueError, TypeError)`, so a
failed `float()` conversion or an `in` test against a non-string evaluates
to `False` rather than raising. -/
def compare_values (actual : PyVal) (op : String) (expected : PyVal) : Bool :=
  if op == "equals" || op == "==" then pyStr actual == pyStr expected
  else if op == "!=" then pyStr actual != pyStr expected
  else if op == ">" then
    match pyFloat actual, pyFloat expected with
    | some a, some b => fracLt b a
    | _, _ => false
  else if op == ">=" then
    match pyFloat actual, pyFloat expected with
    | some a, some b => fracLe b a
    | _, _ => false
  else if op == "<" then
    match pyFloat actual, pyFloat expected with
    | some a, some b => fracLt a b
    | _, _ => false
  else if op == "<=" then
    match pyFloat actual, pyFloat expected with
    | some a, some b => fracLe a b
    | _, _ => false
  else if op == "in" then
    match expected with
    | .str s => charsContain (pyStr actual).toList s.toList
    | _ => false
  else false

/-- One entry of a policy's `conditions` list.  `attrName` models the
`"attribute"` key of the condition object (`attribute` is reserved in Lean). -/
structure Condition where
  attrName : String
  operator : String
  value : PyVal
deriving DecidableEq

/-- A policy's `permissions` object. -/
structure Permissions where
  resource : String
  action : String
deriving DecidableEq

/-- A policy's `rules` JSON document. -/
structure Rules where
  permissions : Permissions
  conditions : List Condition
deriving DecidableEq

/-- Row of the `abac_policies` table (`app/models/abac.py`). -/
structure ABACPolicy where
  name : String
  rules : Rules
  is_active : Bool
deriving DecidableEq

/-- Python `attrs.get(k)` on an attribute dictionary, defaulting to `None`. -/
def getAttr (m : List (String × PyVal)) (k : String) : PyVal :=
  match m.lookup k with
  | some v => v
  | _ => PyVal.none

/-- The attribute resolution
`user_attrs.get(attr_name) or resource_attrs.get(attr_name)` in
`ABACService._evaluate_policy_rules`: Python `or` keeps the left value only
when it is truthy. -/
def resolveAttr (user_attrs resource_attrs : List (String × PyVal)) (k : String) : PyVal :=
  let u := getAttr user_attrs k
  if pyTruthy u then u else getAttr resource_attrs k

/-- Embedding of `ABACService._evaluate_policy_rules`: the permissions must equal the
requested resource/action exactly, and every condition must hold. -/
def evaluate_policy_rules (rules : Rules) (user_attrs resource_attrs : List (String × PyVal))
    (resource action : String) : Bool :=
  if rules.permissions.resource != resource || rules.permissions.action != action then false
  else rules.conditions.all fun c =>
    compare_values (resolveAttr user_attrs resource_attrs c.attrName) c.operator c.value

/-- The columns of `users` consumed by `ABACService.evaluate_policy`. -/
structure User where
  username : String
  department : Option String
  level : Option Int
  location : Option String
  is_superuser : Bool
deriving DecidableEq

/-- The built-in attribute dictionary gathered by `evaluate_policy`:
`{"department": user.department or "", "level": user.level or 1,
"location": user.location or "", "is_superuser": user.is_superuser}`.
`x or d` yields `d` when `x` is `None` or falsy (`""`, `0`). -/
def builtinUserAttrs (u : User) : List (String × PyVal) :=
  [("department", PyVal.str (match u.department with | some d => d | _ => "")),
   ("level", PyVal.int (match u.level with | some n => if n = 0 then 1 else n | _ => 1)),
   ("location", PyVal.str (match u.location with | some l => l | _ => "")),
   ("is_superuser", PyVal.bool u.is_superuser)]

/-- Merging `user_attrs.update(custom_attrs)`: custom attributes shadow built-ins,
modelled by first-match lookup with the custom entries in front. -/
def gatherUserAttrs (u : User) (custom : List (String × PyVal)) : List (String × PyVal) :=
  custom ++ builtinUserAttrs u

/-- Embedding of `ABACService.evaluate_policy`.  The matched-policy list is accumulated
from the active rows of `abac_policies`, while the boolean decision is
delegated to `casbin_enforcer.check_abac_permission_async`; that external
call is the `casbinCheck` parameter. -/
def evaluate_policy (casbinCheck : List (String × PyVal) → String → String → Bool)
    (policies : List ABACPolicy) (u : User) (custom : List (String × PyVal))
    (resource_attrs : List (String × PyVal)) (resource action : String) :
    Bool × List String :=
  let user_attrs := gatherUserAttrs u custom
  let matched := ((policies.filter fun p => p.is_active).filter fun p =>
      evaluate_policy_rules p.rules user_attrs resource_attrs resource action).map
      fun p => p.name
  (casbinCheck user_attrs resource action, matched)

/-- Modelled from the spec: the matcher configuration
`app/casbin/abac_model.conf` consumed by `CasbinEnforcer.check_abac_permission`
is not under `src/`.  Per the spec's design notes the source "delegates rule
storage/matching to a third-party policy-enforcement library"; Casbin's
`enforce` grants only when some stored policy row satisfies the configured
matcher, so over an empty policy-row store it denies for every matcher.
`sync_policy_to_casbin` is a no-op (`pass`), and no code under `src/` ever
adds a row to the dedicated `casbin_abac_rule` table, so the ABAC enforcer's
row store stays empty. -/
def casbinAbacEnforce (matcher : List String → List (String × PyVal) → String → String → Bool)
    (policyRows : List (List String)) (attributes : List (String × PyVal))
    (resource action : String) : Bool :=
  policyRows.any fun row => matcher row attributes resource action

/-- The `manager` row seeded by `scripts/seed_database.py`. -/
def managerUser : User :=
  { username := "manager", department := some "Engineering", level := some 7,
    location := some "US", is_superuser := false }

/-- Rules of the seeded "Engineering Read Access" policy. -/
def engineeringReadRules : Rules :=
  { permissions := { resource := "documents", action := "read" },
    conditions := [{ attrName := "department", operator := "equals",
                     value := PyVal.str "Engineering" }] }

/-- Rules of the seeded "High Level Write Access" policy. -/
def highLevelWriteRules : Rules :=
  { permissions := { resource := "documents", action := "write" },
    conditions := [{ attrName := "level", operator := ">=", value := PyVal.int 7 }] }

/-- Rules of the seeded "HQ Delete Access" policy, whose
`permissions.resource` is the literal string `"*"`. -/
def hqDeleteRules : Rules :=
  { permissions := { resource := "*", action := "delete" },
    conditions := [{ attrName := "location", operator := "equals",
                     value := PyVal.str "HQ" }] }

/-- The three ABAC policies seeded by `scripts/seed_database.py`. -/
def seedAbacPolicies : List ABACPolicy :=
  [{ name := "Engineering Read Access", rules := engineeringReadRules, is_active := true },
   { name := "High Level Write Access", rules := highLevelWriteRules, is_active := true },
   { name := "HQ Delete Access", rules := hqDeleteRules, is_active := true }]

/-- Row of the `resource_relationships` table as declared by
`app/models/user.py` and the migration `001_initial_migration.py`: five
columns and no uniqueness constraint.  `REBACService` also reads and writes
`subject_type`/`subject_id` columns, but neither the model class nor the
table defines them, so subject edges are unrepresentable in the store and
every access to those attributes raises. -/
structure ResourceRelationship where
  resource_type : String
  resource_id : String
  parent_resource_type : String
  parent_resource_id : String
  relationship_type : String
deriving DecidableEq

/-- Python truthiness of an optional-string filter argument: `None` and `""`
are falsy, so the corresponding `if arg:` clause in
`REBACService.get_relationships` is skipped. -/
def strFilterTruthy : Option String → Bool
  | some s => !s.isEmpty
  | _ => false

/-- One working (resource-side) filter of `REBACService.get_relationships`:
a `where` clause is added only when the argument is truthy. -/
def optFilter (f : Option String) (x : String) : Bool :=
  match f with
  | some s => if s.isEmpty then true else x == s
  | _ => true

/-- Embedding of `REBACService.get_relationships`.  The subject filter
clauses reference `ResourceRelationship.subject_type` and
`ResourceRelationship.subject_id`, attributes the model does not define, so
a truthy subject filter raises `AttributeError` (the clauses are evaluated
in source order) before any row is returned; the resource filters work
normally. -/
def get_relationships (store : List ResourceRelationship)
    (subject_type subject_id resource_type resource_id : Option String) :
    Except String (List ResourceRelationship) :=
  if strFilterTruthy subject_type then
    Except.error "type object 'ResourceRelationship' has no attribute 'subject_type'"
  else if strFilterTruthy subject_id then
    Except.error "type object 'ResourceRelationship' has no attribute 'subject_id'"
  else
    Except.ok (store.filter fun r =>
      optFilter resource_type r.resource_type && optFilter resource_id r.resource_id)

/-- Embedding of `REBACService.create_relationship`: the
`ResourceRelationship(subject_type=..., ...)` constructor call passes
keyword arguments for columns the model does not define, so SQLAlchemy's
declarative constructor raises `TypeError` before any row is added — the
store is never changed, on the first call as much as on a repeated one. -/
def create_relationship (store : List ResourceRelationship)
    (subject_type subject_id resource_type resource_id parent_resource_type
     parent_resource_id relationship_type : String) :
    Except String (List ResourceRelationship) :=
  Except.error "'subject_type' is an invalid keyword argument for ResourceRelationship"

/-- The `f"{resource_type}:{resource_id}"` token. -/
def resourceKey (rt ri : String) : String := rt ++ ":" ++ ri

/-- The `f"{rel.parent_resource_type}:{rel.parent_resource_id}"` token. -/
def parentKey (r : ResourceRelationship) : String :=
  resourceKey r.parent_resource_type r.parent_resource_id

/-- Python `" -> ".join(path)`-style joining. -/
def joinStr (sep : String) : List String → String
  | [] => ""
  | [x] => x
  | x :: y :: rest => x ++ sep ++ joinStr sep (y :: rest)

/-- The `for rel in relationships` loop body of
`REBACService._find_permission_path`.  `key` is the enclosing call's
`resource_key` and `recurse` the recursive call into the parent resource.
The parent-ownership check is a subject-filtered `get_relationships` query,
which raises `AttributeError` in the source; the raise propagates out of
the loop (the service installs no handler). -/
def find_path_loop (store : List ResourceRelationship) (username : String)
    (recurse : String → String → List String →
      Except String (Option (List String) × List String))
    (key : String) :
    List ResourceRelationship → List String →
      Except String (Option (List String) × List String)
  | [], visited => Except.ok (Option.none, visited)
  | rel :: rest, visited =>
    let pkey := parentKey rel
    match get_relationships store (some "user") (some username)
        (some rel.parent_resource_type) (some rel.parent_resource_id) with
    | Except.error e => Except.error e
    | Except.ok parent_rels =>
      if !parent_rels.isEmpty then
        Except.ok (some [username ++ " -> owns -> " ++ pkey,
                         pkey ++ " -> " ++ rel.relationship_type ++ " -> " ++ key],
                   visited)
      else
        match recurse rel.parent_resource_type rel.parent_resource_id visited with
        | Except.error e => Except.error e
        | Except.ok (some p, visited₁) =>
          -- Python `if parent_path:` is a truthiness test, so an empty list
          -- would fall through to the next relationship.
          if p.isEmpty then find_path_loop store username recurse key rest visited₁
          else Except.ok
            (some (p ++ [pkey ++ " -> " ++ rel.relationship_type ++ " -> " ++ key]),
             visited₁)
        | Except.ok (Option.none, visited₁) =>
          find_path_loop store username recurse key rest visited₁

/-- Embedding of `REBACService._find_permission_path`, threading the shared
mutable `visited` set and propagating raised exceptions.  Python has no
fuel parameter; the extra `fuel` argument makes the recursion structural.
(With the broken subject-filtered parent-ownership query, the recursive
call can never actually be reached: any examined edge raises first.) -/
def find_permission_path (store : List ResourceRelationship) (username : String) :
    Nat → String → String → List String →
      Except String (Option (List String) × List String)
  | 0, _, _, visited => Except.ok (Option.none, visited)
  | fuel + 1, resource_type, resource_id, visited =>
    let key := resourceKey resource_type resource_id
    if key ∈ visited then Except.ok (Option.none, visited)
    else
      match get_relationships store Option.none Option.none
          (some resource_type) (some resource_id) with
      | Except.error e => Except.error e
      | Except.ok relationships =>
        find_path_loop store username (find_permission_path store username fuel) key
          relationships (key :: visited)

/-- Splitting `resource.split(":", 1)` on the first colon. -/
def splitAtColon : List Char → Option (List Char × List Char)
  | [] => Option.none
  | c :: rest =>
    if c = ':' then some ([], rest)
    else
      match splitAtColon rest with
      | some (a, b) => some (c :: a, b)
      | Option.none => Option.none

/-- Parse the resource token of `check_access_path`. -/
def splitResource (resource : String) : String × String :=
  match splitAtColon resource.toList with
  | some (t, i) => (String.mk t, String.mk i)
  | Option.none => ("resource", resource)

/-- Embedding of `REBACService.check_access_path`.  The very first statement
after parsing the resource token is the subject-filtered direct-ownership
query, which raises `AttributeError` on every call; the decision/path logic
below it is unreachable in the source.  The final Casbin fallback
`check_rebac_permission_async` is the external `casbinFallback` parameter. -/
def check_access_path (store : List ResourceRelationship)
    (casbinFallback : String → String → String → Bool)
    (username resource action : String) :
    Except String (Bool × Option (List String)) :=
  let rt := (splitResource resource).1
  let ri := (splitResource resource).2
  match get_relationships store (some "user") (some username)
      Option.none Option.none with
  | Except.error e => Except.error e
  | Except.ok direct_relationships =>
    match direct_relationships.find? (fun rel =>
        rel.resource_type == rt && rel.resource_id == ri &&
        (rel.relationship_type == "owner_of" || rel.relationship_type == "member_of")) with
    | some rel =>
      Except.ok (true, some [username ++ " -> " ++ rel.relationship_type ++ " -> " ++ resource])
    | Option.none =>
      match find_permission_path store username (store.length + 2) rt ri [] with
      | Except.error e => Except.error e
      | Except.ok pair =>
        match pair.1 with
        | some p =>
          -- Python `if path:` — an empty list is falsy and falls to the fallback.
          if p.isEmpty then Except.ok (casbinFallback username resource action, Option.none)
          else Except.ok (true, some p)
        | Option.none => Except.ok (casbinFallback username resource action, Option.none)

/-- First half of a two-row store whose child-to-parent links form a cycle:
`node:1`'s parent is `node:2`. -/
def cycleEdgeA : ResourceRelationship :=
  { resource_type := "node", resource_id := "1",
    parent_resource_type := "node", parent_resource_id := "2",
    relationship_type := "parent_of" }

/-- Second half of the cyclic store: `node:2`'s parent is `node:1`. -/
def cycleEdgeB : ResourceRelationship :=
  { resource_type := "node", resource_id := "2",
    parent_resource_type := "node", parent_resource_id := "1",
    relationship_type := "parent_of" }

/-- Outcome of one call into the underlying Casbin policy store:
either a decision or a raised exception (store I/O failure). -/
inductive StoreOutcome where
  | ok (decision : Bool)
  | failure (msg : String)
deriving DecidableEq

/-- Embedding of `CasbinEnforcer.check_rbac_permission` (`app/core/casbin_enforcer.py`).
A missing enforcer raises (`Except.error`); an exception from `enforce` is
caught, printed, and turned into the decision `False`. -/
def check_rbac_permission (enforcer : Option (String → String → String → StoreOutcome))
    (user resource action : String) : Except String Bool :=
  match enforcer with
  | Option.none => Except.error "RBAC enforcer not initialized"
  | some enforce =>
    match enforce user resource action with
    | .ok b => Except.ok b
    | .failure _ => Except.ok false

/-- Embedding of `CasbinEnforcer.check_abac_permission`.  An exception from the `try`
block falls back to the superuser check:
`if attributes.get('is_superuser'): return True` else `False`. -/
def check_abac_permission (enforcer : Option (List (String × PyVal) → String → String → StoreOutcome))
    (attributes : List (String × PyVal)) (resource action : String) : Except String Bool :=
  match enforcer with
  | Option.none => Except.error "ABAC enforcer not initialized"
  | some enforce =>
    match enforce attributes resource action with
    | .ok b => Except.ok b
    | .failure _ => Except.ok (pyTruthy (getAttr attributes "is_superuser"))

/-- Embedding of `CasbinEnforcer.check_rebac_permission`: same shape as the RBAC check. -/
def check_rebac_permission (enforcer : Option (String → String → String → StoreOutcome))
    (user resource action : String) : Except String Bool :=
  match enforcer with
  | Option.none => Except.error "ReBAC enforcer not initialized"
  | some enforce =>
    match enforce user resource action with
    | .ok b => Except.ok b
    | .failure _ => Except.ok false

/-- Enum `AuthorizationModel` (`app/schemas/authorization.py`). -/
inductive AuthorizationModel where
  | RBAC
  | ABAC
  | REBAC
deriving DecidableEq

/-- Schema `AuthorizationResult` (`app/schemas/authorization.py`). -/
structure AuthorizationResult where
  model : AuthorizationModel
  has_permission : Bool
  reason : String
deriving DecidableEq

/-- Embedding of `AuthorizationService.check_permission`
(`app/services/authorization_service.py`): evaluates RBAC, then ABAC, then
ReBAC.  The ReBAC step awaits `check_access_path`, and the service installs
no exception handler, so the `AttributeError` raised there propagates and
the RBAC/ABAC results already computed are discarded; only on a successful
ReBAC evaluation would the verdict be assembled as in the source. -/
def check_permission (rbacCheck : String → String → String → Bool)
    (abacCasbinCheck : List (String × PyVal) → String → String → Bool)
    (policies : List ABACPolicy) (custom : List (String × PyVal))
    (resource_attrs : List (String × PyVal))
    (rebacStore : List ResourceRelationship)
    (rebacFallback : String → String → String → Bool)
    (u : User) (resource action : String) :
    Except String (Bool × List AuthorizationModel × List AuthorizationResult) :=
  let rbac_permission := rbacCheck u.username resource action
  let rbacResult : AuthorizationResult :=
    { model := .RBAC, has_permission := rbac_permission,
      reason := "Role-based access control check" }
  let abacPair := evaluate_policy abacCasbinCheck policies u custom resource_attrs
      resource action
  let abac_permission := abacPair.1
  let matched_policies := abacPair.2
  let abacReason :=
    -- Python: `f"Matched policies: {', '.join(matched_policies)}" if matched_policies
    -- else "No policies matched"` (an empty list is falsy).
    if matched_policies.isEmpty then "No policies matched"
    else "Matched policies: " ++ joinStr ", " matched_policies
  let abacResult : AuthorizationResult :=
    { model := .ABAC, has_permission := abac_permission, reason := abacReason }
  match check_access_path rebacStore rebacFallback u.username resource action with
  | Except.error e => Except.error e
  | Except.ok rebacPair =>
    let rebac_permission := rebacPair.1
    let path_str :=
      match rebacPair.2 with
      | some p => if p.isEmpty then "No relationship path found" else joinStr " -> " p
      | Option.none => "No relationship path found"
    let rebacResult : AuthorizationResult :=
      { model := .REBAC, has_permission := rebac_permission, reason := path_str }
    let granted_by :=
      (if rbac_permission then [AuthorizationModel.RBAC] else []) ++
      (if abac_permission then [AuthorizationModel.ABAC] else []) ++
      (if rebac_permission then [AuthorizationModel.REBAC] else [])
    Except.ok (decide (0 < granted_by.length), granted_by,
      [rbacResult, abacResult, rebacResult])

/-! ## Helper lemmas -/

/-- The function `compare_values` under a numeric operator is `false` whenever either
side fails `float()` conversion. -/
theorem compare_values_parse_fail (actual expected : PyVal) (op : String)
    (hop : op = ">" ∨ op = ">=" ∨ op = "<" ∨ op = "<=")
    (hp : pyFloat actual = Option.none ∨ pyFloat expected = Option.none) :
    compare_values actual op expected = false := by
  rcases hop with h | h | h | h <;> subst h <;>
    rcases ha : pyFloat actual with _ | a <;> rcases hb : pyFloat expected with _ | b <;>
      simp [compare_values, ha, hb] <;> rcases hp with h | h <;> simp_all

/-! ## Claims -/

/-- C5: for every condition using a numeric operator, failure of numeric
parsing on either operand makes the condition evaluate to `false` (the
`ValueError`/`TypeError` is caught inside `_compare_values`, so in the
embedding no error value can be produced). -/
theorem c5_numeric_parse_failure_false (actual expected : PyVal) (op : String)
    (hop : op = ">" ∨ op = ">=" ∨ op = "<" ∨ op = "<=")
    (hp : pyFloat actual = Option.none ∨ pyFloat expected = Option.none) :
    compare_values actual op expected = false :=
  compare_values_parse_fail actual expected op hop hp

/-- Witness for C5: the spec's own example, `level="abc"` against
`level>=7`, evaluates to `false`. -/
theorem c5_numeric_parse_failure_false_witness :
    (pyFloat (PyVal.str "abc") = Option.none ∨ pyFloat (PyVal.int 7) = Option.none) ∧
    compare_values (PyVal.str "abc") ">=" (PyVal.int 7) = false :=
  ⟨Or.inl (by decide),
   c5_numeric_parse_failure_false (PyVal.str "abc") (PyVal.int 7) ">="
     (Or.inr (Or.inl rfl)) (Or.inl (by decide))⟩

/-- C9: a policy matches only under exact string equality of
`permissions.resource`/`permissions.action` with the requested
resource/action, so a policy whose resource is the literal `"*"` matches no
request whose resource differs from `"*"` — no wildcard expansion. -/
theorem c9_exact_match_no_wildcard :
    (∀ (rules : Rules) (ua ra : List (String × PyVal)) (resource action : String),
        evaluate_policy_rules rules ua ra resource action = true →
        rules.permissions.resource = resource ∧ rules.permissions.action = action) ∧
    (∀ (rules : Rules) (ua ra : List (String × PyVal)) (resource action : String),
        rules.permissions.resource = "*" → resource ≠ "*" →
        evaluate_policy_rules rules ua ra resource action = false) := by
  constructor
  · intro rules ua ra resource action h
    by_cases hr : rules.permissions.resource = resource
    · by_cases ha : rules.permissions.action = action
      · exact ⟨hr, ha⟩
      · simp [evaluate_policy_rules, hr, ha] at h
    · simp [evaluate_policy_rules, hr] at h
  · intro rules ua ra resource action h1 h2
    have hr : rules.permissions.resource ≠ resource := by
      rw [h1]; exact fun hh => h2 hh.symm
    simp [evaluate_policy_rules, hr]

/-- Witness for C9: the seeded `HQ Delete Access` policy
(`permissions.resource = "*"`) does not match a `documents`/`delete` request
even for a subject at `HQ`, and the matching `Engineering Read Access`
evaluation pins the exact resource/action. -/
theorem c9_exact_match_no_wildcard_witness :
    (hqDeleteRules.permissions.resource = "*" ∧ "documents" ≠ "*") ∧
    evaluate_policy_rules hqDeleteRules [("location", PyVal.str "HQ")] []
      "documents" "delete" = false ∧
    (engineeringReadRules.permissions.resource = "documents" ∧
     engineeringReadRules.permissions.action = "read") :=
  ⟨⟨by decide, by decide⟩,
   c9_exact_match_no_wildcard.2 hqDeleteRules [("location", PyVal.str "HQ")] []
     "documents" "delete" (by decide) (by decide),
   c9_exact_match_no_wildcard.1 engineeringReadRules
     [("department", PyVal.str "Engineering")] [] "documents" "read" (by decide)⟩

/-- C10: in `user_attrs.get(k) or resource_attrs.get(k)`, the subject value
shadows the resource value exactly when it is truthy; a falsy subject value
(`""`, `0`, `False` — or a missing key) falls through to the resource
attribute. -/
theorem c10_falsy_subject_attribute_falls_through :
    ∀ (ua ra : List (String × PyVal)) (k : String) (v : PyVal),
      ua.lookup k = some v →
      (pyTruthy v = false → resolveAttr ua ra k = getAttr ra k) ∧
      (pyTruthy v = true → resolveAttr ua ra k = v) := by
  intro ua ra k v hv
  have hget : getAttr ua k = v := by simp [getAttr, hv]
  constructor
  · intro hfalse
    simp [resolveAttr, hget, hfalse]
  · intro htrue
    simp [resolveAttr, hget, htrue]

/-- Witness for C10: a falsy subject `department` (`""`) is shadowed by the
resource's `department` (`"Sales"`). -/
theorem c10_falsy_subject_attribute_falls_through_witness :
    ([("department", PyVal.str "")].lookup "department" = some (PyVal.str "") ∧
     pyTruthy (PyVal.str "") = false) ∧
    resolveAttr [("department", PyVal.str "")] [("department", PyVal.str "Sales")]
      "department" = PyVal.str "Sales" :=
  ⟨⟨by decide, by decide⟩,
   ((c10_falsy_subject_attribute_falls_through
       [("department", PyVal.str "")] [("department", PyVal.str "Sales")]
       "department" (PyVal.str "") (by decide)).1 (by decide)).trans (by decide)⟩

/-- A policy whose single condition references an attribute absent from both
maps, with operator `!=`. -/
def missingAttrNeRules : Rules :=
  { permissions := { resource := "documents", action := "read" },
    conditions := [{ attrName := "clearance", operator := "!=", value := PyVal.str "x" }] }

/-- C4 counterexample: with the attribute `clearance` missing from both the
subject and the resource map, the `!=` condition compares `str(None) = "None"`
against `"x"` and evaluates `true`, so the policy *does* match — refuting
"the condition evaluates to false under every supported operator". -/
theorem c4_missing_attribute_counterexample :
    resolveAttr [] [] "clearance" = PyVal.none ∧
    compare_values PyVal.none "!=" (PyVal.str "x") = true ∧
    evaluate_policy_rules missingAttrNeRules [] [] "documents" "read" = true := by
  decide

/-- C4 (amended): a condition on an attribute missing from both maps
resolves to `None`; it evaluates `false` under the numeric operators and
under `equals`/`==` unless the literal's string form is `"None"`, but under
`!=` it evaluates `true` whenever the literal's string form differs from
`"None"` (and under `in`, `"None"` is tested as a substring), so such a
policy can still match. -/
theorem c4_missing_attribute_amended :
    ∀ (ua ra : List (String × PyVal)) (c : Condition),
      ua.lookup c.attrName = Option.none → ra.lookup c.attrName = Option.none →
      resolveAttr ua ra c.attrName = PyVal.none ∧
      ((c.operator = ">" ∨ c.operator = ">=" ∨ c.operator = "<" ∨ c.operator = "<=") →
        compare_values PyVal.none c.operator c.value = false) ∧
      ((c.operator = "equals" ∨ c.operator = "==") →
        (compare_values PyVal.none c.operator c.value = true ↔ pyStr c.value = "None")) ∧
      (c.operator = "!=" →
        (compare_values PyVal.none c.operator c.value = true ↔ pyStr c.value ≠ "None")) := by
  intro ua ra c hu hr
  refine ⟨?_, ?_, ?_, ?_⟩
  · simp [resolveAttr, getAttr, hu, hr, pyTruthy]
  · intro hop
    exact compare_values_parse_fail PyVal.none c.value c.operator hop (Or.inl rfl)
  · have keyEq : ∀ v : PyVal,
        compare_values PyVal.none "equals" v = (("None" : String) == pyStr v) := fun _ => rfl
    have keyEq2 : ∀ v : PyVal,
        compare_values PyVal.none "==" v = (("None" : String) == pyStr v) := fun _ => rfl
    rintro (h | h) <;> rw [h]
    · rw [keyEq, beq_iff_eq]; exact eq_comm
    · rw [keyEq2, beq_iff_eq]; exact eq_comm
  · have keyNe : ∀ v : PyVal,
        compare_values PyVal.none "!=" v = (("None" : String) != pyStr v) := fun _ => rfl
    intro h; rw [h, keyNe, bne_iff_ne]; exact ne_comm

/-- Witness for C4's amended claim, at the counterexample's inputs. -/
theorem c4_missing_attribute_amended_witness :
    (([] : List (String × PyVal)).lookup "clearance" = Option.none) ∧
    resolveAttr [] [] "clearance" = PyVal.none ∧
    (compare_values PyVal.none "!=" (PyVal.str "x") = true ↔ "x" ≠ "None") :=
  ⟨rfl,
   (c4_missing_attribute_amended [] []
     { attrName := "clearance", operator := "!=", value := PyVal.str "x" } rfl rfl).1,
   (c4_missing_attribute_amended [] []
     { attrName := "clearance", operator := "!=", value := PyVal.str "x" } rfl rfl).2.2.2 rfl⟩

/-- C2: a store failure raised inside `enforce` is caught by each of
`check_rbac_permission`, `check_abac_permission` and
`check_rebac_permission` and converted into an ordinary decision — `False`
for RBAC/ReBAC and the superuser-flag fallback (possibly `True`) for ABAC —
rather than being propagated as a distinct error. -/
theorem c2_store_failure_swallowed :
    ∀ (user resource action msg : String) (attrs : List (String × PyVal)),
      check_rbac_permission (some fun _ _ _ => .failure msg) user resource action =
        Except.ok false ∧
      check_rebac_permission (some fun _ _ _ => .failure msg) user resource action =
        Except.ok false ∧
      check_abac_permission (some fun _ _ _ => .failure msg) attrs resource action =
        Except.ok (pyTruthy (getAttr attrs "is_superuser")) :=
  fun _ _ _ _ _ => ⟨rfl, rfl, rfl⟩

/-- C1: evaluated against the seeded policies, the `manager` user's
`documents`/`read` request fully matches the active `Engineering Read
Access` policy — the matched list reports it — yet the returned boolean is
`false` for every possible Casbin matcher, because the decision is taken by
`check_abac_permission_async` over the Casbin ABAC policy-row store, which
stays empty (`sync_policy_to_casbin` is `pass`).  The boolean is therefore
not "true iff at least one active policy fully matches". -/
theorem c1_decision_decoupled_from_matches :
    ∀ matcher : List String → List (String × PyVal) → String → String → Bool,
      evaluate_policy (casbinAbacEnforce matcher []) seedAbacPolicies managerUser [] []
        "documents" "read" = (false, ["Engineering Read Access"]) :=
  fun _ => rfl

/-- C6: `create_relationship` raises `TypeError` on every call — SQLAlchemy's
declarative constructor rejects the `subject_type` keyword because the model
defines no such column — so no creation (first or repeated) ever stores a
row.  In particular, creating the same edge twice is neither rejected as
already-exists nor a no-op: the scenario errors out on the first creation,
and no already-exists check exists anywhere in the code. -/
theorem c6_create_relationship_raises :
    ∀ (store : List ResourceRelationship)
      (subject_type subject_id resource_type resource_id parent_resource_type
       parent_resource_id relationship_type : String),
      create_relationship store subject_type subject_id resource_type resource_id
          parent_resource_type parent_resource_id relationship_type =
        Except.error "'subject_type' is an invalid keyword argument for ResourceRelationship" :=
  fun _ _ _ _ _ _ _ _ => rfl

/-- C7: every `check_access_path` call — including the spec scenario
`Enforce("admin", "document:doc_001", "read")` — raises `AttributeError` at
the first subject-filtered query, because the model defines no
`subject_type` column; and the scenario's subject-holding edges cannot even
be created.  Neither the two-hop-true nor the no-edges-false result is
reachable in the source. -/
theorem c7_rebac_scenario_raises :
    (∀ (store : List ResourceRelationship) (fb : String → String → String → Bool)
        (username resource action : String),
        check_access_path store fb username resource action =
          Except.error "type object 'ResourceRelationship' has no attribute 'subject_type'") ∧
    create_relationship [] "user" "admin" "project" "proj_001" "organization" "org_001"
        "owner_of" =
      Except.error "'subject_type' is an invalid keyword argument for ResourceRelationship" :=
  ⟨fun _ _ _ _ _ => rfl, rfl⟩

/-- C3: the aggregator never returns a verdict: its ReBAC step
(`check_access_path`) raises `AttributeError` on every input, and
`check_permission` installs no exception handler, so the RBAC and ABAC
results computed before it are discarded and no
`(granted, granted_by, results)` triple is ever produced. -/
theorem c3_aggregator_raises_in_rebac_step :
    ∀ (rbacCheck : String → String → String → Bool)
      (abacCasbinCheck : List (String × PyVal) → String → String → Bool)
      (policies : List ABACPolicy) (custom resource_attrs : List (String × PyVal))
      (rebacStore : List ResourceRelationship)
      (rebacFallback : String → String → String → Bool)
      (u : User) (resource action : String),
      check_permission rbacCheck abacCasbinCheck policies custom resource_attrs
          rebacStore rebacFallback u resource action =
        Except.error "type object 'ResourceRelationship' has no attribute 'subject_type'" :=
  fun _ _ _ _ _ _ _ _ _ _ => rfl

/-- C8: the cycle guard itself is immediate and error-free — a node already
in the visited set ends that branch with no match before any query is
issued — but on any store where the loop examines an edge (the cyclic
two-edge store included, at every fuel) the parent-ownership query raises
`AttributeError`, so the ancestor search errors instead of terminating the
branch with no match. -/
theorem c8_cycle_guard_but_edge_raises :
    (∀ (store : List ResourceRelationship) (username rt ri : String) (fuel : Nat)
        (visited : List String),
        resourceKey rt ri ∈ visited →
        find_permission_path store username (fuel + 1) rt ri visited =
          Except.ok (Option.none, visited)) ∧
    (∀ fuel : Nat,
        find_permission_path [cycleEdgeA, cycleEdgeB] "bob" (fuel + 1) "node" "1" [] =
          Except.error "type object 'ResourceRelationship' has no attribute 'subject_type'") := by
  constructor
  · intro store username rt ri fuel visited h
    simp only [find_permission_path]
    rw [if_pos h]
  · intro fuel
    rfl

/-- Witness for C8 on the cyclic two-edge store: revisiting `node:1` ends
the branch quietly, while the unguarded search from `node:1` raises. -/
theorem c8_cycle_guard_but_edge_raises_witness :
    (resourceKey "node" "1" ∈ ["node:1"]) ∧
    find_permission_path [cycleEdgeA, cycleEdgeB] "bob" (4 + 1) "node" "1" ["node:1"] =
      Except.ok (Option.none, ["node:1"]) ∧
    find_permission_path [cycleEdgeA, cycleEdgeB] "bob" (4 + 1) "node" "1" [] =
      Except.error "type object 'ResourceRelationship' has no attribute 'subject_type'" :=
  ⟨by decide,
   c8_cycle_guard_but_edge_raises.1 [cycleEdgeA, cycleEdgeB] "bob" "node" "1" 4
     ["node:1"] (by decide),
   c8_cycle_guard_but_edge_raises.2 4⟩

end FastapiStarter
